import Mathlib

/-!
Verification of the credential, transport-header, envelope-decoding and
streaming-delta layer of an OpenAI/Anthropic client library.

Rust strings are embedded as `List Char`; environment access is embedded as a
lookup function; functions that `panic!` in Rust are embedded as `Option`-valued
functions returning `none` on the panicking branch; the process-wide default
credentials cell is embedded by explicit state passing.
-/

/-- Converts a Lean string literal to the `List Char` embedding of Rust strings. -/
def chars (s : String) : List Char :=
  s.toList

/-- Embeds Rust `str::starts_with` on character lists: does the first list start
with the second? -/
def startsWithL : List Char → List Char → Bool
  | _, [] => true
  | [], _ :: _ => false
  | c :: cs, p :: ps => c == p && startsWithL cs ps

/-- Embeds Rust `str::contains` (substring containment): does `hay` contain
`pat` as a contiguous substring? -/
def strContains (hay pat : List Char) : Bool :=
  match hay with
  | [] => startsWithL [] pat
  | c :: rest => startsWithL (c :: rest) pat || strContains rest pat

/-- Embeds Rust `value.ends_with('/')`: the last character is `'/'`. -/
def endsWithSlash (s : List Char) : Bool :=
  match s.getLast? with
  | some c => c == '/'
  | none => false

/-- Embeds `parse_base_url` from `lib.rs`: appends a trailing `'/'` when the
string does not already end with one. -/
def parse_base_url (value : List Char) : List Char :=
  if endsWithSlash value then value else value ++ ['/']

/-- Embeds the `ApiProvider` enum from `lib.rs`. -/
inductive ApiProvider where
  | OpenAI
  | Anthropic
deriving DecidableEq, Repr

/-- Embeds `Credentials` from `lib.rs`: provider tag, API key and base URL. -/
structure Credentials where
  provider : ApiProvider
  api_key : List Char
  base_url : List Char
deriving DecidableEq, Repr

/-- Embeds `Credentials::infer_provider` from `lib.rs`: `"openai"` substring
first, then `"anthropic"`; the `panic!` branch is embedded as `none`. -/
def infer_provider (base_url : List Char) : Option ApiProvider :=
  if strContains base_url (chars "openai") then
    some ApiProvider.OpenAI
  else if strContains base_url (chars "anthropic") then
    some ApiProvider.Anthropic
  else
    none

/-- Embeds `Credentials::new` from `lib.rs`: normalizes the base URL, infers
the provider from it (the `panic!` inside `infer_provider` makes the whole
construction `none`). -/
def Credentials.new (api_key base_url : List Char) : Option Credentials :=
  let base_url' := parse_base_url base_url
  (infer_provider base_url').map (fun provider =>
    { api_key := api_key, base_url := base_url', provider := provider })

/-- The environment is embedded as a partial map from variable names to values. -/
def Env : Type :=
  List Char → Option (List Char)

/-- The API-key environment-variable name chosen by `Credentials::from_env`. -/
def api_key_var : ApiProvider → List Char
  | ApiProvider.OpenAI => chars "OPENAI_KEY"
  | ApiProvider.Anthropic => chars "ANTHROPIC_KEY"

/-- The base-URL environment-variable name chosen by `Credentials::from_env`. -/
def base_url_var : ApiProvider → List Char
  | ApiProvider.OpenAI => chars "OPENAI_BASE_URL"
  | ApiProvider.Anthropic => chars "ANTHROPIC_URL"

/-- Embeds `Credentials::from_env` from `lib.rs`: reads the two
provider-specific variables, panicking (`none`) when either is absent, and
normalizes the base URL; the provider tag is the argument itself. -/
def Credentials.from_env (provider : ApiProvider) (env : Env) : Option Credentials :=
  match env (api_key_var provider), env (base_url_var provider) with
  | some api_key, some base_url_unparsed =>
      some { api_key := api_key, base_url := parse_base_url base_url_unparsed,
             provider := provider }
  | _, _ => none

/-- Embeds the deprecated `set_key` from `lib.rs` as a transformer of the
process-wide default credentials: overwrites only `api_key`. -/
def set_key (value : List Char) (st : Credentials) : Credentials :=
  { st with api_key := value }

/-- Embeds the deprecated `set_base_url` from `lib.rs` as a transformer of the
process-wide default credentials: a no-op on the empty string, otherwise
overwrites `base_url` with the normalized value. -/
def set_base_url (value : List Char) (st : Credentials) : Credentials :=
  if value.isEmpty then st
  else { st with base_url := parse_base_url value }

/-- Embeds the credential-resolution step shared by `openai_request` and
`anthropic_request`: `credentials_opt.unwrap_or_else(|| DEFAULT.read().clone())`. -/
def resolve_credentials (credentials_opt : Option Credentials)
    (defaultCreds : Credentials) : Credentials :=
  credentials_opt.getD defaultCreds

/-- Embeds the effect of `openai_request` on credentials: the pair of the
credentials actually used for the call and the default cell afterwards (the
function only reads the default). -/
def openai_request_effect (credentials_opt : Option Credentials)
    (st : Credentials) : Credentials × Credentials :=
  (resolve_credentials credentials_opt st, st)

/-- Embeds the effect of `anthropic_request` on credentials, identical to the
OpenAI path: read-only resolution against the default cell. -/
def anthropic_request_effect (credentials_opt : Option Credentials)
    (st : Credentials) : Credentials × Credentials :=
  (resolve_credentials credentials_opt st, st)

/-- First-match association-list lookup, used for header lists and decoded
JSON object fields. -/
def assocLookup {α : Type} (key : List Char) : List ((List Char) × α) → Option α
  | [] => none
  | (k, v) :: rest => if k == key then some v else assocLookup key rest

/-- Embeds the headers attached by `openai_request` in `lib.rs`: a single
bearer-token `authorization` header built from the resolved key. -/
def openai_request_headers (c : Credentials) : List ((List Char) × (List Char)) :=
  [(chars "authorization", chars "Bearer " ++ c.api_key)]

/-- Embeds the headers attached by `anthropic_request` in `lib.rs`:
`x-api-key`, the fixed `anthropic-version`, and `content-type`. -/
def anthropic_request_headers (c : Credentials) : List ((List Char) × (List Char)) :=
  [(chars "x-api-key", c.api_key),
   (chars "anthropic-version", chars "2023-06-01"),
   (chars "content-type", chars "application/json")]

-- Basic facts about the normalizer, shared by several claims.

theorem getLast?_append_single (l : List Char) (a : Char) :
    (l ++ [a]).getLast? = some a := by
  simp

theorem endsWithSlash_append_slash (s : List Char) :
    endsWithSlash (s ++ ['/']) = true := by
  unfold endsWithSlash
  rw [getLast?_append_single]
  rfl

theorem endsWithSlash_parse_base_url (s : List Char) :
    endsWithSlash (parse_base_url s) = true := by
  unfold parse_base_url
  by_cases h : endsWithSlash s
  · simp [h]
  · simp [h, endsWithSlash_append_slash]

-- JSON values and the serde-style decoders of `lib.rs`.

/-- The JSON value tree that `serde_json` parses a response body into
(numbers are embedded as integers; none of the decoded fields is
floating-point). -/
inductive Json where
  | null
  | bool (b : Bool)
  | num (n : Int)
  | str (s : List Char)
  | arr (xs : List Json)
  | obj (fields : List ((List Char) × Json))

/-- Embeds `OpenAiError` from `lib.rs`: the error payload with message, type,
optional param and optional code. -/
structure OpenAiError where
  message : List Char
  error_type : List Char
  param : Option (List Char)
  code : Option (List Char)
deriving DecidableEq, Repr

/-- Embeds the untagged `ApiResponse<T>` enum from `lib.rs`, variant order as
in the source: `Err { error }` first, then `Ok(T)`. -/
inductive ApiResponse (T : Type) where
  | Err (error : OpenAiError)
  | Ok (t : T)

/-- Serde decoding of a required `String` field value. -/
def decodeString : Json → Option (List Char)
  | Json.str s => some s
  | _ => none

/-- Serde decoding of an `Option<String>` field: a missing field and an
explicit `null` both give `none`; any non-string, non-null value is a decode
failure. -/
def decodeOptString : Option Json → Option (Option (List Char))
  | none => some none
  | some Json.null => some none
  | some (Json.str s) => some (some s)
  | some _ => none

/-- Serde decoding of `OpenAiError` (derive `Deserialize` with
`rename = "type"` on `error_type`): requires an object with string `message`
and `type`; `param` and `code` are optional; unknown fields are ignored. -/
def decodeOpenAiError : Json → Option OpenAiError
  | Json.obj fields => do
      let message ← (assocLookup (chars "message") fields).bind decodeString
      let error_type ← (assocLookup (chars "type") fields).bind decodeString
      let param ← decodeOptString (assocLookup (chars "param") fields)
      let code ← decodeOptString (assocLookup (chars "code") fields)
      some { message := message, error_type := error_type, param := param,
             code := code }
  | _ => none

/-- The attempt at the untagged `Err { error: OpenAiError }` variant: the body
must be an object whose `"error"` field decodes as `OpenAiError`. -/
def errorPart : Json → Option OpenAiError
  | Json.obj fields => (assocLookup (chars "error") fields).bind decodeOpenAiError
  | _ => none

/-- Embeds serde's untagged deserialization of `ApiResponse<T>` as used by
`openai_request_json` and `anthropic_request_json`: try the `Err` variant
first, then `Ok(T)` with the given decoder for `T`; `none` is a decode
failure. -/
def decodeApiResponse {T : Type} (decT : Json → Option T) (j : Json) :
    Option (ApiResponse T) :=
  match errorPart j with
  | some e => some (ApiResponse.Err e)
  | none => (decT j).map ApiResponse.Ok

/-- Embeds `Usage` from `lib.rs`: the OpenAI token counters, all `u32`. -/
structure Usage where
  prompt_tokens : Nat
  completion_tokens : Nat
  total_tokens : Nat
deriving DecidableEq, Repr

/-- Serde decoding of a `u32` field value: an integer in `[0, 2^32)`. -/
def decodeU32 : Json → Option Nat
  | Json.num n => if 0 ≤ n ∧ n < 4294967296 then some n.toNat else none
  | _ => none

/-- Serde decoding of `Usage` (derive `Deserialize`): three required `u32`
fields, unknown fields ignored. -/
def decodeUsage : Json → Option Usage
  | Json.obj fields => do
      let prompt_tokens ← (assocLookup (chars "prompt_tokens") fields).bind decodeU32
      let completion_tokens ←
        (assocLookup (chars "completion_tokens") fields).bind decodeU32
      let total_tokens ← (assocLookup (chars "total_tokens") fields).bind decodeU32
      some { prompt_tokens := prompt_tokens, completion_tokens := completion_tokens,
             total_tokens := total_tokens }
  | _ => none

-- Streaming delta accumulation.

/-- One streamed text fragment addressed to a content index, the payload of an
`AnthropicChatCompletionContentDelta` event (`anthrophic_chat.rs`) together
with the content index the frame addresses. -/
structure ContentDeltaEvent where
  index : Nat
  text : List Char
deriving DecidableEq, Repr

/-- Modelled from the spec: a streaming-session frame is either a text-delta
event or the terminal end-of-stream event; the fold that consumes them is not
among the sources (only the delta payload type is), so the session is embedded
from the spec's fold algorithm and state machine. -/
inductive StreamEvent where
  | delta (e : ContentDeltaEvent)
  | terminal
deriving DecidableEq, Repr

/-- Modelled from the spec: folding one delta into the accumulator appends its
text, in arrival order, to the content block at the event's index, leaving
every other index unchanged. -/
def applyDelta (acc : Nat → List Char) (e : ContentDeltaEvent) : Nat → List Char :=
  fun j => if j = e.index then acc j ++ e.text else acc j

/-- Modelled from the spec: the streaming session consumes events in arrival
order, folding each delta into the accumulator, and finalizes the accumulator
when the terminal event arrives; a stream that ends without a terminal event
yields no response. -/
def runStream (acc : Nat → List Char) : List StreamEvent → Option (Nat → List Char)
  | [] => none
  | StreamEvent.terminal :: _ => some acc
  | StreamEvent.delta e :: rest => runStream (applyDelta acc e) rest

theorem runStream_deltas_terminal (ds : List ContentDeltaEvent)
    (acc : Nat → List Char) :
    runStream acc (ds.map StreamEvent.delta ++ [StreamEvent.terminal]) =
      some (ds.foldl applyDelta acc) := by
  induction ds generalizing acc with
  | nil => rfl
  | cons e es ih =>
      simp only [List.map_cons, List.cons_append, runStream, List.foldl_cons]
      exact ih (applyDelta acc e)

theorem foldl_applyDelta_at (ds : List ContentDeltaEvent) (acc : Nat → List Char)
    (i : Nat) :
    (ds.foldl applyDelta acc) i =
      acc i ++ ((ds.filter (fun e => e.index == i)).map ContentDeltaEvent.text).flatten := by
  induction ds generalizing acc with
  | nil => simp
  | cons e es ih =>
      simp only [List.foldl_cons, List.filter_cons]
      by_cases h : e.index = i
      · simp only [h, beq_self_eq_true, if_true, List.map_cons, List.flatten_cons]
        rw [ih (applyDelta acc e)]
        simp [applyDelta, h, List.append_assoc]
      · have hb : (e.index == i) = false := by
          exact beq_false_of_ne h
        simp only [hb, Bool.false_eq_true, if_false]
        rw [ih (applyDelta acc e)]
        have hacc : applyDelta acc e i = acc i := by
          unfold applyDelta
          rw [if_neg (fun hx => h hx.symm)]
        rw [hacc]

-- The Anthropic completion request and its wire serialization.

/-- Modelled from the spec: `ChatCompletionMessage` lives in the chat module,
which is not among the sources; the spec describes a conversation turn as a
role with optional text content (the further optional descriptors play no role
in the claims settled here). -/
structure ChatCompletionMessage where
  role : List Char
  content : Option (List Char)
deriving DecidableEq, Repr

/-- Embeds `AnthropicChatCompletionRequest` from `anthrophic_chat.rs`,
restricted to its non-floating-point serialized fields (`temperature`,
`top_p`, `presence_penalty`, `frequency_penalty` and `logit_bias` are `f32`
valued and outside the embedding; `functions`, `function_call` and
`response_format` are opaque pass-through values that no claim touches).
`credentials` carries the per-call override and is never serialized. -/
structure AnthropicChatCompletionRequest where
  model : List Char
  system : Option (List Char)
  messages : List ChatCompletionMessage
  n : Option Nat
  stream : Option Bool
  stop : List (List Char)
  seed : Option Nat
  max_tokens : Option Int
  user : List Char
  credentials : Option Credentials

/-- Embeds the derived `AnthropicChatCompletionBuilder` state: the three
required fields are `Option`-wrapped until set; the rest carry the
`#[builder(default)]` values. -/
structure AnthropicChatCompletionBuilder where
  model : Option (List Char)
  system : Option (Option (List Char))
  messages : Option (List ChatCompletionMessage)
  n : Option Nat
  stream : Option Bool
  stop : List (List Char)
  seed : Option Nat
  max_tokens : Option Int
  user : List Char
  credentials : Option Credentials

/-- Embeds `AnthropicChatCompletionGeneric::builder` from
`anthrophic_chat.rs`: starts from the empty builder, sets `model`, `system`
(the setter strips the option) and `messages`, and presets `max_tokens` to
4096. -/
def anthropicBuilder (model system : List Char)
    (messages : List ChatCompletionMessage) : AnthropicChatCompletionBuilder :=
  { model := some model, system := some (some system), messages := some messages,
    n := none, stream := none, stop := [], seed := none,
    max_tokens := some 4096, user := [], credentials := none }

/-- Embeds the derived builder's `stop` setter: records the list as given,
with no validation of its length. -/
def AnthropicChatCompletionBuilder.setStop (b : AnthropicChatCompletionBuilder)
    (stop : List (List Char)) : AnthropicChatCompletionBuilder :=
  { b with stop := stop }

/-- Embeds the derived builder's `build`: fails only when a required field
(`model`, `system` or `messages`) was never set. -/
def AnthropicChatCompletionBuilder.build (b : AnthropicChatCompletionBuilder) :
    Option AnthropicChatCompletionRequest :=
  match b.model, b.system, b.messages with
  | some model, some system, some messages =>
      some { model := model, system := system, messages := messages,
             n := b.n, stream := b.stream, stop := b.stop, seed := b.seed,
             max_tokens := b.max_tokens, user := b.user,
             credentials := b.credentials }
  | _, _, _ => none

/-- A serialized optional field: present exactly when the value is. -/
def optField (name : List Char) : Option Json → List ((List Char) × Json)
  | some j => [(name, j)]
  | none => []

/-- Serde serialization of one canonical message, modelled from the spec's
wire shape for a conversation turn (role plus optional content). -/
def serializeMessage (m : ChatCompletionMessage) : Json :=
  Json.obj ([(chars "role", Json.str m.role)] ++
    (match m.content with
     | some c => [(chars "content", Json.str c)]
     | none => []))

/-- Embeds the serde serialization of `AnthropicChatCompletionRequest` for its
embedded fields, honouring each field's `skip_serializing_if` attribute:
`stop`, `functions` and `user` are skipped when empty, option fields when
`none`; `model`, `system` and `messages` are always emitted (`system` as
`null` when absent); `credentials` is `skip_serializing`. -/
def requestFields (r : AnthropicChatCompletionRequest) :
    List ((List Char) × Json) :=
  [(chars "model", Json.str r.model),
   (chars "system", match r.system with
                    | some s => Json.str s
                    | none => Json.null),
   (chars "messages", Json.arr (r.messages.map serializeMessage))] ++
  optField (chars "n") (r.n.map (fun x => Json.num (Int.ofNat x))) ++
  optField (chars "stream") (r.stream.map Json.bool) ++
  (if r.stop.isEmpty then [] else [(chars "stop", Json.arr (r.stop.map Json.str))]) ++
  optField (chars "seed") (r.seed.map (fun x => Json.num (Int.ofNat x))) ++
  optField (chars "max_tokens") (r.max_tokens.map Json.num) ++
  (if r.user.isEmpty then [] else [(chars "user", Json.str r.user)])

-- Concrete fixtures used by witnesses.

/-- A concrete environment holding the two OpenAI variables and nothing else. -/
def envFixture : Env :=
  fun v =>
    if v == chars "OPENAI_KEY" then some (chars "sk-test")
    else if v == chars "OPENAI_BASE_URL" then some (chars "https://api.openai.com/v1")
    else none

-- Helper facts about the normalizer.

theorem parse_base_url_of_ends (s : List Char) (h : endsWithSlash s = true) :
    parse_base_url s = s := by
  unfold parse_base_url
  rw [if_pos h]

theorem parse_base_url_of_not_ends (s : List Char) (h : endsWithSlash s = false) :
    parse_base_url s = s ++ ['/'] := by
  unfold parse_base_url
  rw [if_neg (by simp [h])]

-- The claims.

/-- Claim C3: `parse_base_url` appends a trailing slash exactly when one is
absent, is the identity on strings already ending in a slash, and is
idempotent. -/
theorem claim_C3 (s : List Char) :
    parse_base_url (parse_base_url s) = parse_base_url s ∧
    (endsWithSlash s = true → parse_base_url s = s) ∧
    (endsWithSlash s = false → parse_base_url s = s ++ ['/']) :=
  ⟨parse_base_url_of_ends _ (endsWithSlash_parse_base_url s),
   parse_base_url_of_ends s, parse_base_url_of_not_ends s⟩

/-- Witness for C3 at concrete base URLs with and without a trailing slash. -/
theorem claim_C3_witness :
    parse_base_url (chars "https://api.openai.com/v1") =
        chars "https://api.openai.com/v1/" ∧
      parse_base_url (chars "https://api.openai.com/v1/") =
        chars "https://api.openai.com/v1/" :=
  ⟨(claim_C3 (chars "https://api.openai.com/v1")).2.2 rfl,
   (claim_C3 (chars "https://api.openai.com/v1/")).2.1 rfl⟩

/-- Counterexample for C2: the base URL `"openai-anthropic"` contains the
marker `"anthropic"`, yet `infer_provider` does not return the Anthropic tag
(the `"openai"` branch is tested first and wins). -/
theorem claim_C2_counterexample :
    strContains (chars "openai-anthropic") (chars "anthropic") = true ∧
      infer_provider (chars "openai-anthropic") ≠ some ApiProvider.Anthropic := by
  refine ⟨by decide, by decide⟩

/-- Claim C2 (amended): a base URL containing `"openai"` infers OpenAI; one
containing `"anthropic"` but not `"openai"` infers Anthropic; one containing
neither marker fails fatally. -/
theorem claim_C2_amended (url : List Char) :
    (strContains url (chars "openai") = true →
        infer_provider url = some ApiProvider.OpenAI) ∧
    (strContains url (chars "anthropic") = true →
        strContains url (chars "openai") = false →
        infer_provider url = some ApiProvider.Anthropic) ∧
    (strContains url (chars "openai") = false →
        strContains url (chars "anthropic") = false →
        infer_provider url = none) := by
  refine ⟨fun h => ?_, fun h h' => ?_, fun h h' => ?_⟩ <;>
    simp [infer_provider, h]
  · simp [h']
  · simp [h']

/-- Witness for C2 (amended) at three concrete base URLs, one per branch. -/
theorem claim_C2_witness :
    infer_provider (chars "https://api.openai.com/v1/") = some ApiProvider.OpenAI ∧
    infer_provider (chars "https://api.anthropic.com/v1/") =
        some ApiProvider.Anthropic ∧
    infer_provider (chars "https://example.com/") = none :=
  ⟨(claim_C2_amended (chars "https://api.openai.com/v1/")).1 (by decide),
   (claim_C2_amended (chars "https://api.anthropic.com/v1/")).2.1 (by decide)
     (by decide),
   (claim_C2_amended (chars "https://example.com/")).2.2 (by decide) (by decide)⟩

/-- Claim C4: every constructor or mutator of credentials — `Credentials::new`,
`Credentials::from_env`, and `set_base_url` on a non-empty argument —
establishes the invariant that `base_url` ends with `'/'`. -/
theorem claim_C4 :
    (∀ (k u : List Char) (c : Credentials),
        Credentials.new k u = some c → endsWithSlash c.base_url = true) ∧
    (∀ (p : ApiProvider) (env : Env) (c : Credentials),
        Credentials.from_env p env = some c → endsWithSlash c.base_url = true) ∧
    (∀ (v : List Char) (st : Credentials), v ≠ [] →
        endsWithSlash (set_base_url v st).base_url = true) := by
  refine ⟨fun k u c h => ?_, fun p env c h => ?_, fun v st h => ?_⟩
  · unfold Credentials.new at h
    rcases Option.map_eq_some'.mp h with ⟨p, _, rfl⟩
    exact endsWithSlash_parse_base_url _
  · unfold Credentials.from_env at h
    rcases hk : env (api_key_var p) with _ | k' <;> rw [hk] at h
    · exact absurd h (by simp)
    rcases hu : env (base_url_var p) with _ | u' <;> rw [hu] at h
    · exact absurd h (by simp)
    simp only [Option.some.injEq] at h
    rw [← h]
    exact endsWithSlash_parse_base_url _
  · unfold set_base_url
    rw [if_neg (by simpa using h)]
    exact endsWithSlash_parse_base_url _

/-- Witness for C4: the invariant holds for a concrete `new`, a concrete
`from_env`, and a concrete non-empty `set_base_url`. -/
theorem claim_C4_witness :
    endsWithSlash (Credentials.mk ApiProvider.OpenAI (chars "sk")
        (chars "https://api.openai.com/v1/")).base_url = true ∧
    endsWithSlash (Credentials.mk ApiProvider.OpenAI (chars "sk-test")
        (chars "https://api.openai.com/v1/")).base_url = true ∧
    endsWithSlash (set_base_url (chars "https://api.openai.com/v2")
        (Credentials.mk ApiProvider.OpenAI (chars "sk") (chars "u/"))).base_url =
      true :=
  ⟨claim_C4.1 (chars "sk") (chars "https://api.openai.com/v1") _ (by decide),
   claim_C4.2.1 ApiProvider.OpenAI envFixture _ (by decide),
   claim_C4.2.2 (chars "https://api.openai.com/v2") _ (by decide)⟩

/-- Claim C5: each request path uses the explicit per-call credentials when
given, otherwise a snapshot of the process-wide default, and never modifies
the default. -/
theorem claim_C5 (c st : Credentials) :
    openai_request_effect (some c) st = (c, st) ∧
    openai_request_effect none st = (st, st) ∧
    anthropic_request_effect (some c) st = (c, st) ∧
    anthropic_request_effect none st = (st, st) :=
  ⟨rfl, rfl, rfl, rfl⟩

/-- Claim C6: the OpenAI path attaches exactly a bearer `authorization` header
built from the resolved key, the Anthropic path attaches `x-api-key`, the
fixed `anthropic-version: 2023-06-01` and `content-type: application/json`,
and neither path attaches the other's auth header. -/
theorem claim_C6 (c : Credentials) :
    assocLookup (chars "authorization") (openai_request_headers c) =
        some (chars "Bearer " ++ c.api_key) ∧
    assocLookup (chars "x-api-key") (openai_request_headers c) = none ∧
    assocLookup (chars "anthropic-version") (openai_request_headers c) = none ∧
    assocLookup (chars "content-type") (openai_request_headers c) = none ∧
    assocLookup (chars "x-api-key") (anthropic_request_headers c) =
        some c.api_key ∧
    assocLookup (chars "anthropic-version") (anthropic_request_headers c) =
        some (chars "2023-06-01") ∧
    assocLookup (chars "content-type") (anthropic_request_headers c) =
        some (chars "application/json") ∧
    assocLookup (chars "authorization") (anthropic_request_headers c) = none :=
  ⟨rfl, rfl, rfl, rfl, rfl, rfl, rfl, rfl⟩

/-- Claim C7: `Credentials::from_env` fails fatally when either
provider-specific variable is absent, and otherwise returns the key, the
normalized base URL and the given provider tag. -/
theorem claim_C7 (p : ApiProvider) (env : Env) :
    (env (api_key_var p) = none → Credentials.from_env p env = none) ∧
    (env (base_url_var p) = none → Credentials.from_env p env = none) ∧
    (∀ k u, env (api_key_var p) = some k → env (base_url_var p) = some u →
        Credentials.from_env p env =
          some (Credentials.mk p k (parse_base_url u))) := by
  refine ⟨fun h => ?_, fun h => ?_, fun k u hk hu => ?_⟩ <;>
    unfold Credentials.from_env
  · rw [h]
  · rw [h]
    rcases env (api_key_var p) with _ | k <;> rfl
  · rw [hk, hu]

/-- Witness for C7: the concrete environment fixture yields the normalized
OpenAI credentials, and the Anthropic variables being absent from it makes
`from_env` fail. -/
theorem claim_C7_witness :
    Credentials.from_env ApiProvider.OpenAI envFixture =
        some (Credentials.mk ApiProvider.OpenAI (chars "sk-test")
          (chars "https://api.openai.com/v1/")) ∧
      Credentials.from_env ApiProvider.Anthropic envFixture = none :=
  ⟨(claim_C7 ApiProvider.OpenAI envFixture).2.2 (chars "sk-test")
      (chars "https://api.openai.com/v1") (by decide) (by decide),
   (claim_C7 ApiProvider.Anthropic envFixture).1 (by decide)⟩

/-- Claim C10: the deprecated `set_key` overwrites exactly the `api_key` of
the default credentials, leaving `base_url` and the provider tag unchanged. -/
theorem claim_C10 (v : List Char) (st : Credentials) :
    (set_key v st).api_key = v ∧ (set_key v st).base_url = st.base_url ∧
      (set_key v st).provider = st.provider :=
  ⟨rfl, rfl, rfl⟩

/-- A response body that contains an `"error"` key whose value is not an error
payload, alongside a complete `Usage` success shape. -/
def bodyWithBogusError : List ((List Char) × Json) :=
  [(chars "error", Json.bool true),
   (chars "prompt_tokens", Json.num 1),
   (chars "completion_tokens", Json.num 2),
   (chars "total_tokens", Json.num 3)]

/-- Counterexample for C1: this body contains an `"error"` key, yet untagged
decoding yields `Ok` (the `Err` variant fails on the non-payload error value
and serde falls through to the success shape). -/
theorem claim_C1_counterexample :
    (assocLookup (chars "error") bodyWithBogusError).isSome = true ∧
      decodeApiResponse decodeUsage (Json.obj bodyWithBogusError) =
        some (ApiResponse.Ok (Usage.mk 1 2 3)) :=
  ⟨rfl, rfl⟩

/-- Claim C1 (amended): a body whose `"error"` value decodes as the error
payload decodes to `Err` with the payload intact; a JSON object without an
`"error"` key that matches the success shape decodes to `Ok`; a body matching
neither variant is a decode failure. -/
theorem claim_C1_amended {T : Type} (decT : Json → Option T) (j : Json) :
    (∀ e, errorPart j = some e →
        decodeApiResponse decT j = some (ApiResponse.Err e)) ∧
    (∀ fields t, j = Json.obj fields →
        assocLookup (chars "error") fields = none → decT j = some t →
        decodeApiResponse decT j = some (ApiResponse.Ok t)) ∧
    (errorPart j = none → decT j = none → decodeApiResponse decT j = none) := by
  refine ⟨fun e h => ?_, fun fields t hj hnone ht => ?_, fun h h' => ?_⟩
  · unfold decodeApiResponse
    rw [h]
  · have hep : errorPart j = none := by
      subst hj
      show (assocLookup (chars "error") fields).bind decodeOpenAiError = none
      rw [hnone]
      rfl
    unfold decodeApiResponse
    rw [hep, ht]
    rfl
  · unfold decodeApiResponse
    rw [h, h']
    rfl

/-- The error envelope of the spec's end-to-end scenario 3. -/
def authErrorBody : Json :=
  Json.obj [(chars "error",
    Json.obj [(chars "message", Json.str (chars "invalid_api_key")),
              (chars "type", Json.str (chars "authentication_error"))])]

/-- A well-formed `Usage` success body without an `"error"` key. -/
def usageBody : List ((List Char) × Json) :=
  [(chars "prompt_tokens", Json.num 9),
   (chars "completion_tokens", Json.num 12),
   (chars "total_tokens", Json.num 21)]

/-- Witness for C1 (amended): the scenario-3 error envelope decodes to `Err`
with message, type, param and code intact; a plain usage body decodes to `Ok`;
a non-object body matching neither shape is a decode failure. -/
theorem claim_C1_witness :
    decodeApiResponse decodeUsage authErrorBody =
        some (ApiResponse.Err (OpenAiError.mk (chars "invalid_api_key")
          (chars "authentication_error") none none)) ∧
      decodeApiResponse decodeUsage (Json.obj usageBody) =
        some (ApiResponse.Ok (Usage.mk 9 12 21)) ∧
      decodeApiResponse decodeUsage (Json.str (chars "oops")) = none :=
  ⟨(claim_C1_amended decodeUsage authErrorBody).1 _ rfl,
   (claim_C1_amended decodeUsage (Json.obj usageBody)).2.1 usageBody _ rfl rfl rfl,
   (claim_C1_amended decodeUsage (Json.str (chars "oops"))).2.2 rfl rfl⟩

/-- Claim C8: the streaming fold concatenates text fragments in arrival order
into the content block at each event's index, each index accumulating
independently, and the three-fragment scenario finalizes to `"Hi there!"` at
index 0. -/
theorem claim_C8 :
    (∀ (ds : List ContentDeltaEvent) (i : Nat),
        (runStream (fun _ => [])
            (ds.map StreamEvent.delta ++ [StreamEvent.terminal])).map (fun f => f i) =
          some (((ds.filter (fun e => e.index == i)).map
            ContentDeltaEvent.text).flatten)) ∧
      (runStream (fun _ => [])
          [StreamEvent.delta (ContentDeltaEvent.mk 0 (chars "Hi")),
           StreamEvent.delta (ContentDeltaEvent.mk 0 (chars " there")),
           StreamEvent.delta (ContentDeltaEvent.mk 0 (chars "!")),
           StreamEvent.terminal]).map (fun f => f 0) =
        some (chars "Hi there!") := by
  constructor
  · intro ds i
    rw [runStream_deltas_terminal, Option.map_some', foldl_applyDelta_at]
    rfl
  · rfl

/-- Five stop sequences, one more than the documented provider cap of 4. -/
def fiveStops : List (List Char) :=
  [chars "a", chars "b", chars "c", chars "d", chars "e"]

/-- Claim C9: building a request succeeds for a stop list of any length, the
list is recorded unchanged, and serialization passes every stop sequence
through, omitting the field only when the list is empty. -/
theorem claim_C9 (model sys : List Char) (msgs : List ChatCompletionMessage)
    (stop : List (List Char)) :
    ((anthropicBuilder model sys msgs).setStop stop).build =
      some (AnthropicChatCompletionRequest.mk model (some sys) msgs none none
        stop none (some 4096) [] none) ∧
    (stop = [] →
        assocLookup (chars "stop")
          (requestFields (AnthropicChatCompletionRequest.mk model (some sys) msgs
            none none stop none (some 4096) [] none)) = none) ∧
    (stop ≠ [] →
        assocLookup (chars "stop")
          (requestFields (AnthropicChatCompletionRequest.mk model (some sys) msgs
            none none stop none (some 4096) [] none)) =
          some (Json.arr (stop.map Json.str))) := by
  refine ⟨rfl, fun h => ?_, fun h => ?_⟩
  · subst h
    rfl
  · rcases stop with _ | ⟨s0, srest⟩
    · exact absurd rfl h
    · rfl

/-- Witness for C9: with five stop sequences — beyond the documented cap of
4 — building succeeds and all five appear on the wire unchanged. -/
theorem claim_C9_witness :
    ((anthropicBuilder (chars "claude-2") (chars "") []).setStop fiveStops).build =
        some (AnthropicChatCompletionRequest.mk (chars "claude-2")
          (some (chars "")) [] none none fiveStops none (some 4096) [] none) ∧
      assocLookup (chars "stop")
          (requestFields (AnthropicChatCompletionRequest.mk (chars "claude-2")
            (some (chars "")) [] none none fiveStops none (some 4096) [] none)) =
        some (Json.arr (fiveStops.map Json.str)) :=
  ⟨(claim_C9 (chars "claude-2") (chars "") [] fiveStops).1,
   (claim_C9 (chars "claude-2") (chars "") [] fiveStops).2.2 (by decide)⟩
